import Mathlib

/-!
Verification development for the Customer Review Sentiment Analyzer
(src/analyzer.py, class ReviewAnalyzer).

Shallow embedding conventions:
* A Python JSON value (result of json.loads) is the inductive type Jv.
* A Python dict is an association list with unique-key update semantics
  (Dict below); dictSet models d[k] = v (overwrite in place, else append).
* The remote chat-completion API is an oracle of type ChatRequest → CallResult:
  CallResult.content is the response text response.choices[0].message.content,
  CallResult.exn is any exception raised by the call, identified with the
  string str(e) that Python attaches to it.
* json.loads is likewise an oracle String → Except String Jv: Except.error
  carries str(e) of the JSONDecodeError.
* Python ints are Int, Python true division produces Rat, round is
  round-half-to-even on exact rationals (pyRound below).
* Code that can raise is embedded in Except String; the error string names
  the Python exception.
-/

/-- A JSON value as produced by json.loads. -/
inductive Jv : Type where
  | obj : List (String × Jv) → Jv
  | arr : List Jv → Jv
  | str : String → Jv
  | num : Int → Jv
  | bool : Bool → Jv
  | null : Jv

/-- A Python dict with string keys and JSON values, as an association list
in insertion order. -/
abbrev Dict := List (String × Jv)

/-- Embedding of the Python statement d[k] = v on a dict: overwrite the
existing entry for k in place, otherwise append (k, v) at the end. -/
def dictSet : Dict → String → Jv → Dict
  | [], k, v => [(k, v)]
  | (k', v') :: d, k, v => if k' = k then (k, v) :: d else (k', v') :: dictSet d k v

/-- Embedding of the Python expression d[k] as an optional value. -/
def dictGet (d : Dict) (k : String) : Option Jv :=
  List.lookup k d

/-- Embedding of the Python expression k in d. -/
def hasKey (d : Dict) (k : String) : Bool :=
  (dictGet d k).isSome

/-- Outcome of one call to client.chat.completions.create: either the
response text, or the exception the call raised (as its message string). -/
inductive CallResult : Type where
  | content : String → CallResult
  | exn : String → CallResult

/-- One role-tagged message of a chat-completion request. -/
structure ChatMessage : Type where
  role : String
  content : String
deriving DecidableEq

/-- The request analyze_sentiment / generate_summary send to the API:
model name, message list and sampling temperature. -/
structure ChatRequest : Type where
  model : String
  messages : List ChatMessage
  temperature : ℚ
deriving DecidableEq

/-- Constructor state of ReviewAnalyzer: the model and temperature fixed at
construction time (the api_key only authenticates the transport and is not
part of the observable behaviour). -/
structure ReviewAnalyzer : Type where
  model : String := "gpt-3.5-turbo"
  temperature : ℚ := 3/10
deriving DecidableEq

/-- The extraction prompt f-string of analyze_sentiment, with the review
interpolated verbatim. -/
def extractPrompt (review : String) : String :=
  "Analyze the sentiment of this customer review. Provide your response in JSON format with:\n- sentiment: \"positive\", \"negative\", or \"neutral\"\n- score: a number from 1-5 (1=very negative, 5=very positive)\n- key_points: list of main points mentioned\n- emotions: list of emotions detected (e.g., satisfied, frustrated, excited)\n\nReview: "
    ++ review ++ "\n\nRespond with valid JSON only."

/-- The chat request issued by analyze_sentiment: the analyzer's configured
model and temperature, a fixed system message and the extraction prompt. -/
def extractRequest (cfg : ReviewAnalyzer) (review : String) : ChatRequest where
  model := cfg.model
  messages :=
    [⟨"system", "You are a sentiment analysis expert. Always respond with valid JSON."⟩,
     ⟨"user", extractPrompt review⟩]
  temperature := cfg.temperature

/-- The fallback record of the except-branch of analyze_sentiment, with the
exception message msg under the error key. -/
def fallbackRecord (review msg : String) : Dict :=
  [("sentiment", Jv.str "neutral"), ("score", Jv.num 3), ("key_points", Jv.arr []),
   ("emotions", Jv.arr []), ("review", Jv.str review), ("error", Jv.str msg)]

/-- Message of the TypeError raised by result[review-key] = review when
json.loads returned a non-dict value: item assignment on that value's
Python type fails inside the try block. -/
def itemAssignErr : Jv → String
  | Jv.obj _ => ""
  | Jv.arr _ => "list indices must be integers or slices, not str"
  | Jv.str _ => "'str' object does not support item assignment"
  | Jv.num _ => "'int' object does not support item assignment"
  | Jv.bool _ => "'bool' object does not support item assignment"
  | Jv.null => "'NoneType' object does not support item assignment"

/-- Embedding of ReviewAnalyzer.analyze_sentiment. The api oracle stands for
the chat-completion call, jsonLoads for json.loads. Every exception path of
the try block (API exception, JSONDecodeError, TypeError on item assignment
to a non-dict) lands in the except branch and yields the fallback record. -/
def analyze_sentiment (cfg : ReviewAnalyzer) (api : ChatRequest → CallResult)
    (jsonLoads : String → Except String Jv) (review : String) : Dict :=
  match api (extractRequest cfg review) with
  | CallResult.exn msg => fallbackRecord review msg
  | CallResult.content text =>
    match jsonLoads text with
    | Except.error msg => fallbackRecord review msg
    | Except.ok (Jv.obj fields) => dictSet fields "review" (Jv.str review)
    | Except.ok v => fallbackRecord review (itemAssignErr v)

/-- The loop body of analyze_batch from position i on: one analyze_sentiment
call per element, strictly in order; apis i is the oracle for the i-th call,
so success and failure may vary per call. -/
def analyzeBatchFrom (cfg : ReviewAnalyzer) (apis : ℕ → ChatRequest → CallResult)
    (jsonLoads : String → Except String Jv) (i : ℕ) : List String → List Dict
  | [] => []
  | r :: rs =>
    analyze_sentiment cfg (apis i) jsonLoads r :: analyzeBatchFrom cfg apis jsonLoads (i + 1) rs

/-- Embedding of ReviewAnalyzer.analyze_batch (the verbose progress print is
a side effect outside the contract). -/
def analyze_batch (cfg : ReviewAnalyzer) (apis : ℕ → ChatRequest → CallResult)
    (jsonLoads : String → Except String Jv) (reviews : List String) : List Dict :=
  analyzeBatchFrom cfg apis jsonLoads 0 reviews

/-- A SentimentRecord of the data model: the well-typed shape of the records
the aggregator operations consume (dictionary keys sentiment, score,
key_points, emotions, review and the optional error). -/
structure SentimentRecord : Type where
  review : String
  sentiment : String
  score : Int
  key_points : List String
  emotions : List String
  error : Option String := none
deriving DecidableEq

/-- Python round on an exact rational: nearest integer, ties to even. -/
def pyRound (q : ℚ) : ℤ :=
  if q - ⌊q⌋ < 1/2 then ⌊q⌋
  else if 1/2 < q - ⌊q⌋ then ⌊q⌋ + 1
  else if ⌊q⌋ % 2 = 0 then ⌊q⌋ else ⌊q⌋ + 1

/-- Python round(q, n): round to n decimal digits, ties to even. -/
def roundTo (q : ℚ) (n : ℕ) : ℚ :=
  (pyRound (q * 10 ^ n) : ℚ) / 10 ^ n

/-- Accumulator pass behind firstOccs: keep each element not seen before,
remember it as seen, and drop repeats. -/
def firstOccsAux (seen : List String) : List String → List String
  | [] => []
  | x :: xs => if x ∈ seen then firstOccsAux seen xs else x :: firstOccsAux (x :: seen) xs

/-- The keys of Counter(l) in order: first occurrences of l, first-seen
order, duplicates dropped. -/
def firstOccs (l : List String) : List String :=
  firstOccsAux [] l

/-- Embedding of dict(Counter(l)): each key of l in first-seen order with
its multiplicity. -/
def counterDict (l : List String) : List (String × ℕ) :=
  (firstOccs l).map (fun x => (x, l.count x))

/-- Item-count comparison used by Counter.most_common: b's multiplicity in
l at most a's, so that sorting by it descends by count. -/
def cntGe (l : List String) (a b : String) : Prop :=
  l.count b ≤ l.count a

instance (l : List String) : DecidableRel (cntGe l) := fun a b =>
  inferInstanceAs (Decidable (l.count b ≤ l.count a))

/-- Embedding of the item list of Counter(l).most_common(n): the distinct
items of l stably sorted by descending count (CPython sorts the counter
items, in first-seen order, with a stable sort keyed on the count), first
n kept. -/
def most_common (l : List String) (n : ℕ) : List String :=
  (List.insertionSort (cntGe l) (firstOccs l)).take n

/-- The aggregate the summary prompt is built from (the summary_data dict
of generate_summary). -/
structure SummaryData : Type where
  total_reviews : ℕ
  sentiment_breakdown : List (String × ℕ)
  average_score : ℚ
  common_points : List String
  common_emotions : List String
deriving DecidableEq

/-- The key_points of all records concatenated in record order (the
all_key_points accumulator of generate_summary). -/
def allKeyPoints (records : List SentimentRecord) : List String :=
  List.foldl (fun acc r => acc ++ r.key_points) [] records

/-- The emotions of all records concatenated in record order (the
all_emotions accumulator of generate_summary). -/
def allEmotions (records : List SentimentRecord) : List String :=
  List.foldl (fun acc r => acc ++ r.emotions) [] records

/-- The summary_data dict computed by generate_summary. -/
def summaryData (records : List SentimentRecord) : SummaryData where
  total_reviews := records.length
  sentiment_breakdown := counterDict (records.map (fun r => r.sentiment))
  average_score :=
    if records.map (fun r => r.score) = [] then 0
    else ((records.map (fun r => r.score)).sum : ℚ) / (records.map (fun r => r.score)).length
  common_points := most_common (allKeyPoints records) 10
  common_emotions := most_common (allEmotions records) 5

/-- JSON string rendering used while serialising the prompt data (escaping
of special characters inside the string is not modelled; no claim depends
on the rendered text). -/
def jsonQuote (s : String) : String := "\"" ++ s ++ "\""

/-- JSON rendering of a list of strings, as in json.dumps of the sample
reviews (indentation abstracted). -/
def jsonListStr (xs : List String) : String :=
  "[" ++ String.intercalate ", " (xs.map jsonQuote) ++ "]"

/-- JSON rendering of a counts dict (indentation abstracted). -/
def jsonCounts (xs : List (String × ℕ)) : String :=
  "\x7b" ++ String.intercalate ", " (xs.map (fun p => jsonQuote p.1 ++ ": " ++ toString p.2)) ++ "\x7d"

/-- JSON rendering of the summary_data dict, modelling json.dumps
(summary_data, indent=2) up to whitespace. -/
def summaryDataDump (d : SummaryData) : String :=
  "\x7b\"total_reviews\": " ++ toString d.total_reviews
    ++ ", \"sentiment_breakdown\": " ++ jsonCounts d.sentiment_breakdown
    ++ ", \"average_score\": " ++ toString d.average_score
    ++ ", \"common_points\": " ++ jsonListStr d.common_points
    ++ ", \"common_emotions\": " ++ jsonListStr d.common_emotions ++ "\x7d"

/-- The up-to-5 sample reviews of the summary prompt, each truncated to 200
characters with an ellipsis appended when longer. -/
def sampleReviews (records : List SentimentRecord) : List String :=
  (records.take 5).map (fun r =>
    if 200 < r.review.length then r.review.take 200 ++ "..." else r.review)

/-- The summary prompt f-string of generate_summary. -/
def summaryPrompt (records : List SentimentRecord) : String :=
  "Based on the following customer review analysis data, generate a concise executive summary:\n\nData:\n"
    ++ summaryDataDump (summaryData records)
    ++ "\n\nSample reviews:\n"
    ++ jsonListStr (sampleReviews records)
    ++ "\n\nGenerate a professional summary that includes:\n1. Overall sentiment overview\n2. Key themes and patterns\n3. Main customer concerns or praises\n4. Actionable insights for business improvement\n\nKeep it under 300 words."

/-- The chat request issued by generate_summary: the configured model, a
fixed system message, and the literal temperature 0.5 independent of the
analyzer's configured temperature. -/
def summaryRequest (cfg : ReviewAnalyzer) (records : List SentimentRecord) : ChatRequest where
  model := cfg.model
  messages :=
    [⟨"system", "You are a business analyst expert at summarizing customer feedback."⟩,
     ⟨"user", summaryPrompt records⟩]
  temperature := 1/2

/-- Embedding of ReviewAnalyzer.generate_summary: build the aggregate and
prompt (the mean score is guarded by the if-scores-else-0 conditional, so
the empty record list divides nothing), issue one call, and on any
exception return the error description string instead of raising. -/
def generate_summary (cfg : ReviewAnalyzer) (api : ChatRequest → CallResult)
    (records : List SentimentRecord) : String :=
  match api (summaryRequest cfg records) with
  | CallResult.content text => text
  | CallResult.exn msg => "Error generating summary: " ++ msg

/-- The report dict built by generate_report. -/
structure Report : Type where
  total_reviews : ℕ
  sentiment_distribution : List (String × ℕ)
  average_rating : ℚ
  positive_percentage : ℚ
  negative_percentage : ℚ
  neutral_percentage : ℚ
  summary : String
  detailed_results : List SentimentRecord
deriving DecidableEq

/-- Embedding of ReviewAnalyzer.generate_report. The percentage lines
divide by len(sentiments) without a guard, so the empty record list raises
ZeroDivisionError before the summary call is reached; average_rating keeps
its if-scores-else-0 guard. -/
def generate_report (cfg : ReviewAnalyzer) (api : ChatRequest → CallResult)
    (records : List SentimentRecord) : Except String Report :=
  let sentiments := records.map (fun r => r.sentiment)
  let scores := records.map (fun r => r.score)
  if sentiments.length = 0 then Except.error "ZeroDivisionError: division by zero"
  else Except.ok
    { total_reviews := records.length
      sentiment_distribution := counterDict sentiments
      average_rating := if scores = [] then 0 else roundTo ((scores.sum : ℚ) / scores.length) 2
      positive_percentage := roundTo (((sentiments.count "positive" : ℚ) / sentiments.length) * 100) 1
      negative_percentage := roundTo (((sentiments.count "negative" : ℚ) / sentiments.length) * 100) 1
      neutral_percentage := roundTo (((sentiments.count "neutral" : ℚ) / sentiments.length) * 100) 1
      summary := generate_summary cfg api records
      detailed_results := records }

/-- Specification-side average rating: the mean of the records' score
fields rounded to 2 decimals, 0 for the empty list. -/
def specAverageRating (records : List SentimentRecord) : ℚ :=
  if records = [] then 0
  else roundTo ((records.map (fun r => (r.score : ℚ))).sum / records.length) 2

/-- Specification-side label percentage: count of the label among the
records' sentiment fields over the total, times 100, rounded to 1
decimal. -/
def specPercentage (records : List SentimentRecord) (label : String) : ℚ :=
  roundTo (((records.map (fun r => r.sentiment)).count label : ℚ) / records.length * 100) 1

/-- Position of the first occurrence of a in a list (length if absent), the
first-encountered order of the specification. -/
def firstIdx (a : String) : List String → ℕ
  | [] => 0
  | x :: xs => if x = a then 0 else firstIdx a xs + 1

/-- Specification-side order for top-k selection over the pool pts: more
frequent first, and among equally frequent items the one first encountered
in pts first. -/
def specLex (pts : List String) (a b : String) : Prop :=
  pts.count b < pts.count a ∨ (pts.count a = pts.count b ∧ firstIdx a pts ≤ firstIdx b pts)

instance (pts : List String) : DecidableRel (specLex pts) := fun a b =>
  decidable_of_iff
    (pts.count b < pts.count a ∨ (pts.count a = pts.count b ∧ firstIdx a pts ≤ firstIdx b pts))
    Iff.rfl

/-- Specification-side top-k selection: the distinct items of pts sorted by
the frequency-then-first-encounter order, first n kept. -/
def specTopK (pts : List String) (n : ℕ) : List String :=
  (List.insertionSort (specLex pts) (firstOccs pts)).take n

instance (pts : List String) : IsTotal String (specLex pts) where
  total a b := by unfold specLex; omega

instance (pts : List String) : IsTrans String (specLex pts) where
  trans a b c hab hbc := by unfold specLex at *; omega

/-- Oracle of a summary call that always succeeds with a fixed response. -/
def apiOkW : ChatRequest → CallResult := fun _ => CallResult.content "All good."

/-- Test fixture: a positive record with score 5. -/
def recPos5 : SentimentRecord :=
  { review := "Great!", sentiment := "positive", score := 5,
    key_points := ["quality"], emotions := ["happy"] }

/-- Test fixture: a positive record with score 4. -/
def recPos4 : SentimentRecord :=
  { review := "Good", sentiment := "positive", score := 4, key_points := [], emotions := [] }

/-- Test fixture: a negative record with score 2. -/
def recNeg2 : SentimentRecord :=
  { review := "Bad", sentiment := "negative", score := 2,
    key_points := ["poor quality"], emotions := ["frustrated"] }

/-- Test fixture: a neutral record with score 3. -/
def recNeu3 : SentimentRecord :=
  { review := "OK", sentiment := "neutral", score := 3, key_points := [], emotions := [] }

/-! Dictionary lemmas. -/

/-- Looking up the key just written by dictSet yields the written value. -/
theorem lookup_dictSet (d : Dict) (k : String) (v : Jv) :
    dictGet (dictSet d k v) k = some v := by
  induction d with
  | nil => simp [dictSet, dictGet, List.lookup]
  | cons p d ih =>
    obtain ⟨k', v'⟩ := p
    by_cases h : k' = k
    · subst h
      simp [dictSet, dictGet, List.lookup]
    · simp only [dictSet, if_neg h, dictGet, List.lookup]
      rw [show (k == k') = false from beq_eq_false_iff_ne.mpr (Ne.symm h)]
      exact ih

/-- Writing one key with dictSet leaves every other key's lookup unchanged. -/
theorem lookup_dictSet_ne (d : Dict) (k k' : String) (v : Jv) (h : k ≠ k') :
    dictGet (dictSet d k' v) k = dictGet d k := by
  induction d with
  | nil => simp [dictSet, dictGet, List.lookup, beq_eq_false_iff_ne.mpr h]
  | cons p d ih =>
    obtain ⟨k₀, v₀⟩ := p
    by_cases h0 : k₀ = k'
    · subst h0
      simp only [dictSet, if_pos rfl, dictGet, List.lookup]
      rw [show (k == k₀) = false from beq_eq_false_iff_ne.mpr h]
    · simp only [dictSet, if_neg h0, dictGet, List.lookup]
      cases hkk : k == k₀ with
      | true => rfl
      | false => exact ih

/-- The review field of every record analyze_sentiment returns is the input
string, on the success path (overwritten by the item assignment) as well as
on every fallback path. -/
theorem dictGet_analyze_sentiment_review (cfg : ReviewAnalyzer)
    (api : ChatRequest → CallResult) (jl : String → Except String Jv) (review : String) :
    dictGet (analyze_sentiment cfg api jl review) "review" = some (Jv.str review) := by
  cases hc : api (extractRequest cfg review) with
  | exn msg => simp only [analyze_sentiment, hc]; rfl
  | content text =>
    cases hj : jl text with
    | error msg => simp only [analyze_sentiment, hc, hj]; rfl
    | ok v =>
      cases v with
      | obj fields =>
        simp only [analyze_sentiment, hc, hj]
        exact lookup_dictSet fields "review" (Jv.str review)
      | arr l => simp only [analyze_sentiment, hc, hj]; rfl
      | str s => simp only [analyze_sentiment, hc, hj]; rfl
      | num n => simp only [analyze_sentiment, hc, hj]; rfl
      | bool b => simp only [analyze_sentiment, hc, hj]; rfl
      | null => simp only [analyze_sentiment, hc, hj]; rfl

/-! Batch loop lemmas. -/

/-- The batch loop returns one record per input review. -/
theorem analyzeBatchFrom_length (cfg : ReviewAnalyzer) (apis : ℕ → ChatRequest → CallResult)
    (jl : String → Except String Jv) :
    ∀ (i : ℕ) (rs : List String), (analyzeBatchFrom cfg apis jl i rs).length = rs.length
  | _, [] => rfl
  | i, _ :: rs => by
    simp [analyzeBatchFrom, analyzeBatchFrom_length cfg apis jl (i + 1) rs]

/-- The j-th record of the batch loop started at position i is the result of
the single analyze_sentiment call on the j-th review with the (i+j)-th
oracle. -/
theorem analyzeBatchFrom_getD (cfg : ReviewAnalyzer) (apis : ℕ → ChatRequest → CallResult)
    (jl : String → Except String Jv) :
    ∀ (i j : ℕ) (rs : List String), j < rs.length →
      (analyzeBatchFrom cfg apis jl i rs).getD j []
        = analyze_sentiment cfg (apis (i + j)) jl (rs.getD j "")
  | _, _, [], h => absurd h (by simp)
  | i, 0, r :: rs, _ => by simp [analyzeBatchFrom]
  | i, j + 1, r :: rs, h => by
    simp only [analyzeBatchFrom, List.getD_cons_succ]
    rw [show i + (j + 1) = (i + 1) + j by omega]
    exact analyzeBatchFrom_getD cfg apis jl (i + 1) j rs (by simpa using h)

/-- Claim C1: for every non-empty review list, analyze_batch returns one
record per review, produced by one sequential per-review call each, and the
i-th record's review field is the i-th input string verbatim on every path
of the underlying call. -/
theorem analyze_batch_reviews_verbatim (cfg : ReviewAnalyzer)
    (apis : ℕ → ChatRequest → CallResult) (jl : String → Except String Jv)
    (reviews : List String) (hne : reviews ≠ []) :
    (analyze_batch cfg apis jl reviews).length = reviews.length ∧
    ∀ i, i < reviews.length →
      dictGet ((analyze_batch cfg apis jl reviews).getD i []) "review"
        = some (Jv.str (reviews.getD i "")) := by
  refine ⟨analyzeBatchFrom_length cfg apis jl 0 reviews, fun i hi => ?_⟩
  unfold analyze_batch
  rw [analyzeBatchFrom_getD cfg apis jl 0 i reviews hi]
  exact dictGet_analyze_sentiment_review cfg (apis (0 + i)) jl (reviews.getD i "")

/-- Witness for claim C1 at a two-element batch whose first call succeeds
with a parsed object and whose second call raises. -/
theorem analyze_batch_reviews_verbatim_witness :
    (analyze_batch {}
        (fun i => if i = 0 then (fun _ => CallResult.content "json")
          else (fun _ => CallResult.exn "Connection error."))
        (fun _ => Except.ok (Jv.obj [("sentiment", Jv.str "positive")]))
        ["Good product", "Bad quality"]).length = 2 ∧
    dictGet ((analyze_batch {}
        (fun i => if i = 0 then (fun _ => CallResult.content "json")
          else (fun _ => CallResult.exn "Connection error."))
        (fun _ => Except.ok (Jv.obj [("sentiment", Jv.str "positive")]))
        ["Good product", "Bad quality"]).getD 0 []) "review" = some (Jv.str "Good product") ∧
    dictGet ((analyze_batch {}
        (fun i => if i = 0 then (fun _ => CallResult.content "json")
          else (fun _ => CallResult.exn "Connection error."))
        (fun _ => Except.ok (Jv.obj [("sentiment", Jv.str "positive")]))
        ["Good product", "Bad quality"]).getD 1 []) "review" = some (Jv.str "Bad quality") := by
  have h := analyze_batch_reviews_verbatim {}
    (fun i => if i = 0 then (fun _ => CallResult.content "json")
      else (fun _ => CallResult.exn "Connection error."))
    (fun _ => Except.ok (Jv.obj [("sentiment", Jv.str "positive")]))
    ["Good product", "Bad quality"] (by simp)
  exact ⟨h.1, h.2 0 (by simp), h.2 1 (by simp)⟩

/-- Claim C2: whenever the extraction call fails, by an API exception or a
json.loads failure, analyze_sentiment returns the neutral fallback record
carrying the input review verbatim and the non-empty exception message
under the error key; the exception is absorbed, not propagated, and the
oracle is consulted once (no retry). -/
theorem analyze_sentiment_failure_fallback (cfg : ReviewAnalyzer)
    (api : ChatRequest → CallResult) (jl : String → Except String Jv)
    (review msg : String) (hm : msg ≠ "")
    (h : api (extractRequest cfg review) = CallResult.exn msg ∨
      ∃ t, api (extractRequest cfg review) = CallResult.content t ∧ jl t = Except.error msg) :
    analyze_sentiment cfg api jl review = fallbackRecord review msg ∧
    dictGet (analyze_sentiment cfg api jl review) "sentiment" = some (Jv.str "neutral") ∧
    dictGet (analyze_sentiment cfg api jl review) "score" = some (Jv.num 3) ∧
    dictGet (analyze_sentiment cfg api jl review) "key_points" = some (Jv.arr []) ∧
    dictGet (analyze_sentiment cfg api jl review) "emotions" = some (Jv.arr []) ∧
    dictGet (analyze_sentiment cfg api jl review) "review" = some (Jv.str review) ∧
    dictGet (analyze_sentiment cfg api jl review) "error" = some (Jv.str msg) ∧
    msg ≠ "" := by
  have h1 : analyze_sentiment cfg api jl review = fallbackRecord review msg := by
    rcases h with h | ⟨t, ht, hjt⟩
    · simp only [analyze_sentiment, h]
    · simp only [analyze_sentiment, ht, hjt]
  refine ⟨h1, ?_, ?_, ?_, ?_, ?_, ?_, hm⟩ <;> rw [h1] <;> rfl

/-- Witness for claim C2 at a concrete transport failure. -/
theorem analyze_sentiment_failure_fallback_witness :
    analyze_sentiment {} (fun _ => CallResult.exn "Connection error.")
        (fun _ => Except.ok Jv.null) "The shipping was slow."
      = fallbackRecord "The shipping was slow." "Connection error." ∧
    dictGet (analyze_sentiment {} (fun _ => CallResult.exn "Connection error.")
        (fun _ => Except.ok Jv.null) "The shipping was slow.") "sentiment"
      = some (Jv.str "neutral") ∧
    dictGet (analyze_sentiment {} (fun _ => CallResult.exn "Connection error.")
        (fun _ => Except.ok Jv.null) "The shipping was slow.") "score" = some (Jv.num 3) ∧
    dictGet (analyze_sentiment {} (fun _ => CallResult.exn "Connection error.")
        (fun _ => Except.ok Jv.null) "The shipping was slow.") "key_points"
      = some (Jv.arr []) ∧
    dictGet (analyze_sentiment {} (fun _ => CallResult.exn "Connection error.")
        (fun _ => Except.ok Jv.null) "The shipping was slow.") "emotions"
      = some (Jv.arr []) ∧
    dictGet (analyze_sentiment {} (fun _ => CallResult.exn "Connection error.")
        (fun _ => Except.ok Jv.null) "The shipping was slow.") "review"
      = some (Jv.str "The shipping was slow.") ∧
    dictGet (analyze_sentiment {} (fun _ => CallResult.exn "Connection error.")
        (fun _ => Except.ok Jv.null) "The shipping was slow.") "error"
      = some (Jv.str "Connection error.") ∧
    "Connection error." ≠ "" :=
  analyze_sentiment_failure_fallback {} (fun _ => CallResult.exn "Connection error.")
    (fun _ => Except.ok Jv.null) "The shipping was slow." "Connection error."
    (by decide) (Or.inl rfl)

/-- Claim C10: when the call succeeds and the response parses as JSON but
not as a JSON object, the item assignment inside the try block raises, so
analyze_sentiment returns the neutral fallback record with the TypeError
message under the error key. -/
theorem analyze_sentiment_nondict_fallback (cfg : ReviewAnalyzer)
    (api : ChatRequest → CallResult) (jl : String → Except String Jv)
    (review t : String) (v : Jv)
    (ht : api (extractRequest cfg review) = CallResult.content t)
    (hv : jl t = Except.ok v) (hnd : ∀ fields, v ≠ Jv.obj fields) :
    analyze_sentiment cfg api jl review = fallbackRecord review (itemAssignErr v) ∧
    dictGet (analyze_sentiment cfg api jl review) "sentiment" = some (Jv.str "neutral") ∧
    dictGet (analyze_sentiment cfg api jl review) "score" = some (Jv.num 3) ∧
    dictGet (analyze_sentiment cfg api jl review) "review" = some (Jv.str review) ∧
    hasKey (analyze_sentiment cfg api jl review) "error" = true := by
  have h1 : analyze_sentiment cfg api jl review = fallbackRecord review (itemAssignErr v) := by
    cases v with
    | obj fields => exact absurd rfl (hnd fields)
    | arr l => simp only [analyze_sentiment, ht, hv]
    | str s => simp only [analyze_sentiment, ht, hv]
    | num n => simp only [analyze_sentiment, ht, hv]
    | bool b => simp only [analyze_sentiment, ht, hv]
    | null => simp only [analyze_sentiment, ht, hv]
  refine ⟨h1, ?_, ?_, ?_, ?_⟩ <;> rw [h1] <;> rfl

/-- Witness for claim C10: the response parses as the JSON list [ ] and the
fallback record is returned. -/
theorem analyze_sentiment_nondict_fallback_witness :
    analyze_sentiment {} (fun _ => CallResult.content "[]") (fun _ => Except.ok (Jv.arr []))
        "Fine."
      = fallbackRecord "Fine." (itemAssignErr (Jv.arr [])) ∧
    dictGet (analyze_sentiment {} (fun _ => CallResult.content "[]")
        (fun _ => Except.ok (Jv.arr [])) "Fine.") "sentiment" = some (Jv.str "neutral") ∧
    dictGet (analyze_sentiment {} (fun _ => CallResult.content "[]")
        (fun _ => Except.ok (Jv.arr [])) "Fine.") "score" = some (Jv.num 3) ∧
    dictGet (analyze_sentiment {} (fun _ => CallResult.content "[]")
        (fun _ => Except.ok (Jv.arr [])) "Fine.") "review" = some (Jv.str "Fine.") ∧
    hasKey (analyze_sentiment {} (fun _ => CallResult.content "[]")
        (fun _ => Except.ok (Jv.arr [])) "Fine.") "error" = true :=
  analyze_sentiment_nondict_fallback {} (fun _ => CallResult.content "[]")
    (fun _ => Except.ok (Jv.arr [])) "Fine." "[]" (Jv.arr []) rfl rfl
    (fun _ h => nomatch h)

/-- Claim C7 counterexample: the claim says a successfully parsed response
never yields a record with an error key, but the parsed JSON is merged with
no validation, so a parsed object that itself carries an error member is
returned with that member intact despite the call succeeding. -/
theorem analyze_sentiment_error_key_on_success :
    analyze_sentiment {} (fun _ => CallResult.content "json text")
        (fun _ => Except.ok (Jv.obj
          [("sentiment", Jv.str "positive"), ("error", Jv.str "model supplied")]))
        "Lovely."
      = [("sentiment", Jv.str "positive"), ("error", Jv.str "model supplied"),
         ("review", Jv.str "Lovely.")] ∧
    hasKey (analyze_sentiment {} (fun _ => CallResult.content "json text")
        (fun _ => Except.ok (Jv.obj
          [("sentiment", Jv.str "positive"), ("error", Jv.str "model supplied")]))
        "Lovely.") "error" = true :=
  ⟨rfl, rfl⟩

/-- Claim C7 (amended): every failure path yields a record with an error
key; on the success path the record has an error key exactly when the
parsed object itself already contained one, because the parsed JSON is
merged with review and returned without validation. -/
theorem analyze_sentiment_error_key_iff (cfg : ReviewAnalyzer)
    (api : ChatRequest → CallResult) (jl : String → Except String Jv) (review : String) :
    (∀ msg, api (extractRequest cfg review) = CallResult.exn msg →
      hasKey (analyze_sentiment cfg api jl review) "error" = true) ∧
    (∀ t msg, api (extractRequest cfg review) = CallResult.content t →
      jl t = Except.error msg →
      hasKey (analyze_sentiment cfg api jl review) "error" = true) ∧
    (∀ t v, api (extractRequest cfg review) = CallResult.content t →
      jl t = Except.ok v → (∀ fields, v ≠ Jv.obj fields) →
      hasKey (analyze_sentiment cfg api jl review) "error" = true) ∧
    (∀ t fields, api (extractRequest cfg review) = CallResult.content t →
      jl t = Except.ok (Jv.obj fields) →
      hasKey (analyze_sentiment cfg api jl review) "error" = hasKey fields "error") := by
  refine ⟨fun msg h => ?_, fun t msg ht hj => ?_, fun t v ht hj hnd => ?_,
    fun t fields ht hj => ?_⟩
  · simp only [analyze_sentiment, h]; rfl
  · simp only [analyze_sentiment, ht, hj]; rfl
  · exact (analyze_sentiment_nondict_fallback cfg api jl review t v ht hj hnd).2.2.2.2
  · simp only [analyze_sentiment, ht, hj, hasKey]
    rw [lookup_dictSet_ne fields "error" "review" (Jv.str review) (by decide)]

/-- Witness for the amended claim C7: a failing call yields an error key
and a successful call whose parsed object lacks one yields none. -/
theorem analyze_sentiment_error_key_iff_witness :
    hasKey (analyze_sentiment {} (fun _ => CallResult.exn "boom")
      (fun _ => Except.ok Jv.null) "A") "error" = true ∧
    hasKey (analyze_sentiment {} (fun _ => CallResult.content "json")
      (fun _ => Except.ok (Jv.obj [("sentiment", Jv.str "positive"), ("score", Jv.num 5)]))
      "B") "error" = false := by
  constructor
  · exact (analyze_sentiment_error_key_iff {} (fun _ => CallResult.exn "boom")
      (fun _ => Except.ok Jv.null) "A").1 "boom" rfl
  · have h := (analyze_sentiment_error_key_iff {} (fun _ => CallResult.content "json")
      (fun _ => Except.ok (Jv.obj [("sentiment", Jv.str "positive"), ("score", Jv.num 5)]))
      "B").2.2.2 "json" [("sentiment", Jv.str "positive"), ("score", Jv.num 5)] rfl rfl
    rw [h]; rfl

/-- Claim C9 counterexample: a configured extractor temperature of 0.5 lies
in the allowed range, yet the fixed summary temperature 0.5 is not strictly
higher than the extractor call's temperature. -/
theorem summary_temperature_not_strictly_higher :
    (0 : ℚ) ≤ 1/2 ∧ (1/2 : ℚ) ≤ 1 ∧
    (extractRequest { temperature := 1/2 } "ok").temperature = 1/2 ∧
    (summaryRequest { temperature := 1/2 } []).temperature = 1/2 ∧
    ¬ ((extractRequest { temperature := 1/2 } "ok").temperature
        < (summaryRequest { temperature := 1/2 } []).temperature) := by
  refine ⟨by norm_num, by norm_num, rfl, rfl, ?_⟩
  show ¬ ((1 : ℚ)/2 < 1/2)
  norm_num

/-- Claim C9 (amended): the summary call's temperature is the fixed value
0.5, independent of the configured extractor temperature, and the extractor
call uses exactly the configured temperature; whenever that setting is
below 0.5 (for instance the default 0.3) the summary temperature is
strictly higher. -/
theorem summary_temperature_fixed (cfg : ReviewAnalyzer) (review : String)
    (records : List SentimentRecord) :
    (summaryRequest cfg records).temperature = 1/2 ∧
    (extractRequest cfg review).temperature = cfg.temperature ∧
    (cfg.temperature < 1/2 →
      (extractRequest cfg review).temperature < (summaryRequest cfg records).temperature) :=
  ⟨rfl, rfl, fun h => h⟩

/-- Witness for the amended claim C9 at the default configuration. -/
theorem summary_temperature_fixed_witness :
    (summaryRequest {} []).temperature = 1/2 ∧
    (extractRequest {} "ok").temperature = 3/10 ∧
    (extractRequest {} "ok").temperature < (summaryRequest {} []).temperature := by
  have h := summary_temperature_fixed {} "ok" []
  exact ⟨h.1, h.2.1, h.2.2 (by norm_num)⟩

/-- Claim C3 (code bug): generate_report on the empty record list does not
return normally: the per-label percentage lines divide by len(sentiments)
with no guard, so the call raises ZeroDivisionError, contradicting the
stated propagation policy; the summary call is never reached. -/
theorem generate_report_empty_raises (cfg : ReviewAnalyzer) (api : ChatRequest → CallResult) :
    generate_report cfg api [] = Except.error "ZeroDivisionError: division by zero" :=
  rfl

/-- Claim C4: every report generate_report actually produces counts its
records: total_reviews is the input length, detailed_results is the input
record list unchanged and in order, and the two agree. -/
theorem generate_report_totals (cfg : ReviewAnalyzer) (api : ChatRequest → CallResult)
    (records : List SentimentRecord) (report : Report)
    (h : generate_report cfg api records = Except.ok report) :
    report.total_reviews = records.length ∧
    report.detailed_results = records ∧
    report.total_reviews = report.detailed_results.length := by
  by_cases hr : records = []
  · subst hr
    simp [generate_report] at h
  · simp only [generate_report] at h
    rw [if_neg (by simpa using hr), Except.ok.injEq] at h
    subst h
    exact ⟨rfl, rfl, by simp⟩

/-- Witness for claim C4 at a concrete two-record list. -/
theorem generate_report_totals_witness :
    (generate_report {} apiOkW [recPos5, recNeg2]).map
        (fun r => (r.total_reviews, r.detailed_results))
      = Except.ok (2, [recPos5, recNeg2]) := by
  cases hg : generate_report {} apiOkW [recPos5, recNeg2] with
  | error e => simp [generate_report] at hg
  | ok r =>
    obtain ⟨h1, h2, -⟩ := generate_report_totals {} apiOkW [recPos5, recNeg2] r hg
    simp [Except.map, h1, h2]

/-- Claim C5: every report generate_report actually produces carries the
mean of the score fields rounded to 2 decimals as average_rating and, for
each label, the share of that label among the sentiment fields times 100
rounded to 1 decimal as its percentage. -/
theorem generate_report_numbers (cfg : ReviewAnalyzer) (api : ChatRequest → CallResult)
    (records : List SentimentRecord) (report : Report)
    (h : generate_report cfg api records = Except.ok report) :
    report.average_rating = specAverageRating records ∧
    report.positive_percentage = specPercentage records "positive" ∧
    report.negative_percentage = specPercentage records "negative" ∧
    report.neutral_percentage = specPercentage records "neutral" := by
  by_cases hr : records = []
  · subst hr
    simp [generate_report] at h
  · simp only [generate_report] at h
    rw [if_neg (by simpa using hr), Except.ok.injEq] at h
    subst h
    refine ⟨?_, ?_, ?_, ?_⟩
    · simp [specAverageRating, hr, List.length_map]
    · simp [specPercentage, List.length_map]
    · simp [specPercentage, List.length_map]
    · simp [specPercentage, List.length_map]

/-- Witness for claim C5: labels positive, positive, negative, neutral give
the percentages 50, 25, 25, and scores 5 and 2 give average rating 3.5. -/
theorem generate_report_numbers_witness :
    (generate_report {} apiOkW [recPos5, recPos4, recNeg2, recNeu3]).map
        (fun r => (r.positive_percentage, r.negative_percentage, r.neutral_percentage))
      = Except.ok (50, 25, 25) ∧
    (generate_report {} apiOkW [recPos5, recNeg2]).map (fun r => r.average_rating)
      = Except.ok (7/2) := by
  constructor
  · cases hg : generate_report {} apiOkW [recPos5, recPos4, recNeg2, recNeu3] with
    | error e => simp [generate_report] at hg
    | ok r =>
      obtain ⟨-, hp, hn, hu⟩ :=
        generate_report_numbers {} apiOkW [recPos5, recPos4, recNeg2, recNeu3] r hg
      have c1 : (List.map (fun r => r.sentiment)
          [recPos5, recPos4, recNeg2, recNeu3]).count "positive" = 2 := by decide
      have c2 : (List.map (fun r => r.sentiment)
          [recPos5, recPos4, recNeg2, recNeu3]).count "negative" = 1 := by decide
      have c3 : (List.map (fun r => r.sentiment)
          [recPos5, recPos4, recNeg2, recNeu3]).count "neutral" = 1 := by decide
      have v1 : specPercentage [recPos5, recPos4, recNeg2, recNeu3] "positive" = 50 := by
        rw [specPercentage, c1]
        norm_num [roundTo, pyRound]
      have v2 : specPercentage [recPos5, recPos4, recNeg2, recNeu3] "negative" = 25 := by
        rw [specPercentage, c2]
        norm_num [roundTo, pyRound]
      have v3 : specPercentage [recPos5, recPos4, recNeg2, recNeu3] "neutral" = 25 := by
        rw [specPercentage, c3]
        norm_num [roundTo, pyRound]
      simp [Except.map, hp, hn, hu, v1, v2, v3]
  · cases hg : generate_report {} apiOkW [recPos5, recNeg2] with
    | error e => simp [generate_report] at hg
    | ok r =>
      obtain ⟨ha, -, -, -⟩ := generate_report_numbers {} apiOkW [recPos5, recNeg2] r hg
      have va : specAverageRating [recPos5, recNeg2] = 7/2 := by
        rw [specAverageRating, if_neg (by decide)]
        norm_num [recPos5, recNeg2, roundTo, pyRound]
      simp [Except.map, ha, va]

/-- Claim C6: generate_summary is a total function into strings: for every
record list, including the empty one (the mean-score division is guarded by
the if-scores-else-0 conditional), a successful call returns the response
text and a failing call returns an error description string instead of
raising. -/
theorem generate_summary_never_raises (cfg : ReviewAnalyzer)
    (api : ChatRequest → CallResult) (records : List SentimentRecord) :
    (∀ msg, api (summaryRequest cfg records) = CallResult.exn msg →
      generate_summary cfg api records = "Error generating summary: " ++ msg) ∧
    (∀ text, api (summaryRequest cfg records) = CallResult.content text →
      generate_summary cfg api records = text) := by
  constructor <;> intro s hs <;> simp [generate_summary, hs]

/-- Witness for claim C6: on the empty record list with a failing summary
call, generate_summary returns normally with the error string. -/
theorem generate_summary_never_raises_witness :
    generate_summary {} (fun _ => CallResult.exn "Connection error.") [] =
      "Error generating summary: Connection error." :=
  (generate_summary_never_raises {} (fun _ => CallResult.exn "Connection error.") []).1
    "Connection error." rfl

/-! Counter.most_common lemmas. -/

/-- Elements the first-occurrence pass keeps come from the list and were
not seen before. -/
theorem mem_firstOccsAux :
    ∀ (l seen : List String) (b : String), b ∈ firstOccsAux seen l → b ∈ l ∧ b ∉ seen
  | [], _, b, hb => absurd hb (by simp [firstOccsAux])
  | x :: xs, seen, b, hb => by
    by_cases hx : x ∈ seen
    · rw [firstOccsAux, if_pos hx] at hb
      obtain ⟨h1, h2⟩ := mem_firstOccsAux xs seen b hb
      exact ⟨List.mem_cons_of_mem x h1, h2⟩
    · rw [firstOccsAux, if_neg hx] at hb
      rcases List.mem_cons.mp hb with h | h
      · exact ⟨h ▸ List.mem_cons_self x xs, h ▸ hx⟩
      · obtain ⟨h1, h2⟩ := mem_firstOccsAux xs (x :: seen) b h
        exact ⟨List.mem_cons_of_mem x h1,
          fun hs => h2 (List.mem_cons_of_mem x hs)⟩

/-- The first-occurrence pass lists elements in strictly increasing order
of their first position in the remaining list. -/
theorem pairwise_firstIdx_firstOccsAux :
    ∀ (l seen : List String),
      (firstOccsAux seen l).Pairwise (fun a b => firstIdx a l < firstIdx b l)
  | [], _ => List.Pairwise.nil
  | x :: xs, seen => by
    by_cases hx : x ∈ seen
    · rw [firstOccsAux, if_pos hx]
      refine (pairwise_firstIdx_firstOccsAux xs seen).imp_of_mem ?_
      intro a b ha hb hlt
      have ha' := mem_firstOccsAux xs seen a ha
      have hb' := mem_firstOccsAux xs seen b hb
      have hax : x ≠ a := fun h => ha'.2 (h ▸ hx)
      have hbx : x ≠ b := fun h => hb'.2 (h ▸ hx)
      simp only [firstIdx, if_neg hax, if_neg hbx]
      omega
    · rw [firstOccsAux, if_neg hx]
      refine List.Pairwise.cons ?_ ?_
      · intro b hb
        have hb' := mem_firstOccsAux xs (x :: seen) b hb
        have hbx : x ≠ b := fun h => hb'.2 (h ▸ List.mem_cons_self x seen)
        simp only [firstIdx, if_true]
        rw [if_neg hbx]
        omega
      · refine (pairwise_firstIdx_firstOccsAux xs (x :: seen)).imp_of_mem ?_
        intro a b ha hb hlt
        have ha' := mem_firstOccsAux xs (x :: seen) a ha
        have hb' := mem_firstOccsAux xs (x :: seen) b hb
        have hax : x ≠ a := fun h => ha'.2 (h ▸ List.mem_cons_self x seen)
        have hbx : x ≠ b := fun h => hb'.2 (h ▸ List.mem_cons_self x seen)
        simp only [firstIdx, if_neg hax, if_neg hbx]
        omega

/-- Ordered insertion does not depend on the order relation as long as the
two relations agree between the inserted element and every list element. -/
theorem orderedInsert_congr (r₁ r₂ : String → String → Prop)
    [DecidableRel r₁] [DecidableRel r₂] (x : String) :
    ∀ ys : List String, (∀ y ∈ ys, r₁ x y ↔ r₂ x y) →
      List.orderedInsert r₁ x ys = List.orderedInsert r₂ x ys
  | [], _ => rfl
  | y :: ys, h => by
    by_cases h1 : r₁ x y
    · simp only [List.orderedInsert]
      rw [if_pos h1, if_pos ((h y (List.mem_cons_self y ys)).mp h1)]
    · simp only [List.orderedInsert]
      rw [if_neg h1, if_neg (fun h2 => h1 ((h y (List.mem_cons_self y ys)).mpr h2)),
        orderedInsert_congr r₁ r₂ x ys (fun z hz => h z (List.mem_cons_of_mem y hz))]

/-- Insertion sort does not depend on the order relation as long as the two
relations agree on every pair the input presents in order. -/
theorem insertionSort_congr (r₁ r₂ : String → String → Prop)
    [DecidableRel r₁] [DecidableRel r₂] :
    ∀ l : List String, l.Pairwise (fun a b => r₁ a b ↔ r₂ a b) →
      List.insertionSort r₁ l = List.insertionSort r₂ l
  | [], _ => rfl
  | x :: xs, h => by
    simp only [List.insertionSort]
    rw [insertionSort_congr r₁ r₂ xs (List.pairwise_cons.mp h).2]
    exact orderedInsert_congr r₁ r₂ x (List.insertionSort r₂ xs)
      (fun y hy => (List.pairwise_cons.mp h).1 y
        ((List.perm_insertionSort r₂ xs).mem_iff.mp hy))

/-- On a pair whose first component occurs first, the count-only comparison
of the stable sort coincides with the frequency-then-first-encounter
order. -/
theorem cntGe_iff_specLex (l : List String) (a b : String)
    (hab : firstIdx a l < firstIdx b l) : cntGe l a b ↔ specLex l a b := by
  unfold cntGe specLex
  constructor <;> intro h <;> omega

/-- The item list of Counter.most_common equals the specification-side
top-k selection: stable sorting the distinct items by count alone sorts
them by count with ties in first-encountered order. -/
theorem most_common_eq_specTopK (l : List String) (n : ℕ) :
    most_common l n = specTopK l n := by
  unfold most_common specTopK firstOccs
  congr 1
  exact insertionSort_congr (cntGe l) (specLex l) (firstOccsAux [] l)
    ((pairwise_firstIdx_firstOccsAux l []).imp
      (fun hab => cntGe_iff_specLex l _ _ hab))

/-- Claim C8: the top-10 key_points and top-5 emotions of the summary data
are the most frequent items over the concatenation of the records'
key_points and emotions lists in record order, with ties between equal
frequencies broken by first-encountered order, the selection being the
deterministic function specTopK: the sort underlying it orders the distinct
items exactly by the frequency-then-first-encounter relation. -/
theorem generate_summary_topk (records : List SentimentRecord) :
    (summaryData records).common_points = specTopK (allKeyPoints records) 10 ∧
    (summaryData records).common_emotions = specTopK (allEmotions records) 5 ∧
    (∀ pts : List String,
      (List.insertionSort (specLex pts) (firstOccs pts)).Sorted (specLex pts)) ∧
    (∀ pts : List String,
      List.Perm (List.insertionSort (specLex pts) (firstOccs pts)) (firstOccs pts)) :=
  ⟨most_common_eq_specTopK (allKeyPoints records) 10,
   most_common_eq_specTopK (allEmotions records) 5,
   fun pts => List.sorted_insertionSort (specLex pts) (firstOccs pts),
   fun pts => List.perm_insertionSort (specLex pts) (firstOccs pts)⟩
